import Mathlib

/-!
Verification of the quantitative core of the KAST Neural Wallet repository.

The TypeScript source is shallowly embedded over the rationals: every JS
`number` whose computation stays within field arithmetic and comparisons is
modelled as a `ℚ`; the transcendental primitives `Math.log`, `Math.exp` and
`Math.sqrt` are abstracted as explicit function parameters (`logQ`, `expQ`,
`sqrtQ`), constrained by hypotheses only where a claim needs a property of
them (e.g. `sqrtQ 0 = 0`, nonnegativity on nonnegative inputs).  Where the
finiteness of an IEEE result is itself at stake (division by zero), a small
JS-number value type `JsNum` with `fin / posInf / negInf / nan` is used.
Wall-clock reads (`Date.now()`), generated certificate ids, and purely
presentational string formatting are outside the embedding.
-/

/-! ## Generic list helpers (mirroring `simple-statistics` and `Math.min`/`Math.max` spreads) -/

/-- Arithmetic mean of a list of rationals, `simple-statistics`' `mean`
(sum divided by length; `0/0 = 0` for the empty list, which never occurs at call sites). -/
def listMean (xs : List ℚ) : ℚ := xs.sum / xs.length

/-- Population variance, as computed by `simple-statistics`' `variance`:
mean of the squared deviations from the mean. -/
def popVariance (xs : List ℚ) : ℚ :=
  (xs.map (fun x => (x - listMean xs) ^ 2)).sum / xs.length

/-- Mirrors `Math.min(...xs)` over a nonempty spread; `d` is a default for the
(unreachable at call sites) empty case. -/
def listMinD (xs : List ℚ) (d : ℚ) : ℚ :=
  match xs with
  | [] => d
  | h :: t => t.foldl min h

/-- Mirrors `Math.max(...xs)` over a nonempty spread; `d` is a default for the
(unreachable at call sites) empty case. -/
def listMaxD (xs : List ℚ) (d : ℚ) : ℚ :=
  match xs with
  | [] => d
  | h :: t => t.foldl max h

/-- Mirrors `Math.max(...xs)` over a nonempty list of naturals (used for
`inputDataPoints` in the ensemble). -/
def listMaxNat (xs : List ℕ) (d : ℕ) : ℕ :=
  match xs with
  | [] => d
  | h :: t => t.foldl max h

/-! ## Shared data model

`RiskMetrics` from the Mathematical Risk Engine (src/unnamed/part_007) and
`ForecastResult` from src/src/lib/forecastEngine.ts.  `modelParams`, a free-form
diagnostic number map never consumed by downstream logic relevant to the
claims, is not modelled. -/

structure RiskMetrics where
  volatility : ℚ
  volatilityDaily : ℚ
  var95 : ℚ
  var99 : ℚ
  cvar95 : ℚ
  cvar99 : ℚ
  maxDrawdown : ℚ
  currentDrawdown : ℚ
  relativeUncertainty : ℚ
  totalValue : ℚ
  atRiskAmount : ℚ
deriving DecidableEq, Repr

structure ForecastResult where
  expectedValue : ℚ
  lowerBound : ℚ
  upperBound : ℚ
  errorMargin : ℚ
  confidenceLevel : ℚ
  model : String
  inputDataPoints : ℕ
  forecastHorizon : ℚ
  rSquared : Option ℚ
  rmse : Option ℚ
deriving DecidableEq, Repr

/-! ## Decision Engine (src/src/lib/decisionEngine.ts) -/

inductive DecisionType where
  | hold
  | reduce_exposure
  | increase_stable
  | take_profit
  | add_collateral
deriving DecidableEq, Repr

inductive Urgency where
  | low
  | medium
  | high
  | critical
deriving DecidableEq, Repr

/-- The two fields of `ProcessedPriceData` read by the Decision Engine
(`isStale` and `relativeUncertainty`); the remaining display fields are not
modelled. -/
structure ProcessedPriceData where
  isStale : Bool
  relativeUncertainty : ℚ
deriving DecidableEq, Repr

/-- Mirrors `determineDecisionType` (decisionEngine.ts lines 287-319): first matching
rule wins.  The `_positionValue` argument is unused in the source and kept for
fidelity. -/
def determineDecisionType (forecast : ForecastResult) (risk : RiskMetrics)
    (_positionValue : ℚ) : DecisionType :=
  if risk.volatility > 0.5 ∧ forecast.expectedValue < forecast.lowerBound * 1.1 then
    .reduce_exposure
  else if risk.var95 > 0.1 then
    .add_collateral
  else if risk.currentDrawdown > 0.15 then
    .reduce_exposure
  else if risk.relativeUncertainty > 0.02 then
    .increase_stable
  else if forecast.expectedValue > forecast.lowerBound * 1.05 ∧ risk.var95 < 0.05 then
    .take_profit
  else
    .hold

/-- Modelled from the spec (section 4.6 "Decision type" rule list), to be
compared with `determineDecisionType` from the source. -/
def determineDecisionTypeSpec (forecast : ForecastResult) (risk : RiskMetrics) : DecisionType :=
  if risk.volatility > 0.5 ∧ forecast.expectedValue < 1.1 * forecast.lowerBound then
    .reduce_exposure
  else if risk.var95 > 0.1 then
    .add_collateral
  else if risk.currentDrawdown > 0.15 then
    .reduce_exposure
  else if risk.relativeUncertainty > 0.02 then
    .increase_stable
  else if forecast.expectedValue > 1.05 * forecast.lowerBound ∧ risk.var95 < 0.05 then
    .take_profit
  else
    .hold

/-! ## JS number model for finiteness questions

The pure-`ℚ` embedding is exact as long as every intermediate stays finite.
Where the spec's claim is precisely about finiteness of IEEE results (claim
C4), the affected computations are modelled over `JsNum`, a JS `number` with
the non-finite values made explicit (`NaN` and the two infinities are
collapsed no further). -/

inductive JsNum where
  | fin : ℚ → JsNum
  | posInf : JsNum
  | negInf : JsNum
  | nan : JsNum
deriving DecidableEq, Repr

/-- JS division of two finite numbers: `a / 0` is `±Infinity` by the sign of
`a`, and `0 / 0` is `NaN`. -/
def jsDivQ (a b : ℚ) : JsNum :=
  if b ≠ 0 then .fin (a / b)
  else if 0 < a then .posInf
  else if a < 0 then .negInf
  else .nan

/-- JS multiplication of a number by a finite constant. -/
def JsNum.mulQ : JsNum → ℚ → JsNum
  | .nan, _ => .nan
  | .fin a, c => .fin (a * c)
  | .posInf, c => if 0 < c then .posInf else if c < 0 then .negInf else .nan
  | .negInf, c => if 0 < c then .negInf else if c < 0 then .posInf else .nan

/-- Mirrors `Math.min(c, x)` with `c` finite: `NaN` is absorbing. -/
def jsMinQ (c : ℚ) : JsNum → JsNum
  | .nan => .nan
  | .fin a => .fin (min c a)
  | .posInf => .fin c
  | .negInf => .negInf

/-- Mirrors `Math.max(c, x)` with `c` finite: `NaN` is absorbing. -/
def jsMaxQ (c : ℚ) : JsNum → JsNum
  | .nan => .nan
  | .fin a => .fin (max c a)
  | .posInf => .posInf
  | .negInf => .fin c

/-- JS subtraction. -/
def JsNum.sub : JsNum → JsNum → JsNum
  | .nan, _ => .nan
  | _, .nan => .nan
  | .fin a, .fin b => .fin (a - b)
  | .fin _, .posInf => .negInf
  | .fin _, .negInf => .posInf
  | .posInf, .posInf => .nan
  | .posInf, _ => .posInf
  | .negInf, .negInf => .nan
  | .negInf, _ => .negInf

/-- Mirrors `Math.round`: `floor(x + 1/2)` on finite values, identity on the rest. -/
def JsNum.round : JsNum → JsNum
  | .fin a => .fin ((⌊a + 1 / 2⌋ : ℤ) : ℚ)
  | x => x

/-- A `JsNum` is finite when it carries a rational value. -/
def JsNum.isFinite : JsNum → Prop
  | .fin _ => True
  | _ => False

instance : DecidablePred JsNum.isFinite := by
  intro x
  cases x <;> simp [JsNum.isFinite] <;> infer_instance

/-! ## Decision Engine: remaining pure functions -/

/-- Mirrors `normalCDF` (decisionEngine.ts lines 347-363): rational error-function
approximation; `Math.sqrt(2)` and `Math.exp` abstracted as `sqrt2q`/`expQ`. -/
def normalCDF (expQ : ℚ → ℚ) (sqrt2q : ℚ) (x : ℚ) : ℚ :=
  let a1 : ℚ := 0.254829592
  let a2 : ℚ := -0.284496736
  let a3 : ℚ := 1.421413741
  let a4 : ℚ := -1.453152027
  let a5 : ℚ := 1.061405429
  let p : ℚ := 0.3275911
  let sign : ℚ := if x < 0 then -1 else 1
  let x := |x| / sqrt2q
  let t := 1 / (1 + p * x)
  let y := 1 - (((((a5 * t + a4) * t) + a3) * t + a2) * t + a1) * t * expQ (-(x * x))
  0.5 * (1 + sign * y)

/-- Mirrors `calculateProbabilityOfLoss` (decisionEngine.ts lines 325-342). -/
def calculateProbabilityOfLoss (expQ : ℚ → ℚ) (sqrt2q : ℚ)
    (forecast : ForecastResult) (positionValue : ℚ) : ℚ :=
  if positionValue = 0 then 0
  else
    let sigma := forecast.errorMargin / 1.96
    if sigma = 0 then (if forecast.expectedValue < 0 then 1 else 0)
    else normalCDF expQ sqrt2q ((0 - forecast.expectedValue) / sigma)

/-- Mirrors `calculateDataQuality` (decisionEngine.ts lines 368-388). -/
def calculateDataQuality (forecast : ForecastResult) (risk : RiskMetrics)
    (priceData : ProcessedPriceData) : ℚ :=
  let score : ℚ := 100
  let score := if priceData.isStale then score - 30 else score
  let score := score - min 30 (priceData.relativeUncertainty * 3000)
  let score := score - min 20 (risk.volatility * 40)
  let score := if forecast.inputDataPoints < 20 then score - 20 else score
  max 0 score

/-- Mirrors `determineUrgency` (decisionEngine.ts lines 393-398). -/
def determineUrgency (risk : RiskMetrics) (probLoss : ℚ) : Urgency :=
  if risk.var95 > 0.15 ∨ probLoss > 0.3 then .critical
  else if risk.var95 > 0.1 ∨ probLoss > 0.2 then .high
  else if risk.var95 > 0.05 ∨ probLoss > 0.1 then .medium
  else .low

/-- Mirrors `calculateConfidenceScore` (decisionEngine.ts lines 403-418).  The division
`errorMargin / expectedValue` has no zero guard in the source, so the whole
computation is modelled over `JsNum`. -/
def calculateConfidenceScore (dataQuality : ℚ) (forecast : ForecastResult)
    (risk : RiskMetrics) : JsNum :=
  let errorPct := jsDivQ forecast.errorMargin forecast.expectedValue
  let score := JsNum.fin dataQuality
  let score := score.sub (jsMinQ 20 (errorPct.mulQ 100))
  let score := score.sub (.fin (min 20 (risk.volatility * 40)))
  jsMaxQ 0 (jsMinQ 100 score.round)

/-- Suggested action (decisionEngine.ts `buildSuggestedAction`): the numeric
payload; the templated reasoning strings are presentational and not modelled. -/
structure SuggestedAction where
  actionType : String
  amount : ℚ
  targetAsset : Option String
deriving DecidableEq, Repr

/-- Mirrors `buildSuggestedAction` (decisionEngine.ts lines 423-466). -/
def buildSuggestedAction (type : DecisionType) (positionValue : ℚ)
    (risk : RiskMetrics) : SuggestedAction :=
  match type with
  | .reduce_exposure => ⟨"sell", positionValue * 0.2, none⟩
  | .increase_stable => ⟨"swap", positionValue * 0.3, some "USDC"⟩
  | .add_collateral => ⟨"deposit", positionValue * risk.var95 * 1.5, none⟩
  | .take_profit => ⟨"sell", positionValue * 0.1, none⟩
  | .hold => ⟨"hold", 0, none⟩

structure DecisionAlternative where
  type : DecisionType
  confidenceScore : ℚ
deriving DecidableEq, Repr

/-- Mirrors `generateAlternatives` (decisionEngine.ts lines 471-504); the fixed
description strings are not modelled. -/
def generateAlternatives (currentType : DecisionType) (risk : RiskMetrics) :
    List DecisionAlternative :=
  (if currentType ≠ DecisionType.hold then [⟨.hold, 60⟩] else []) ++
  (if currentType ≠ DecisionType.reduce_exposure ∧ risk.var95 > 0.05 then
    [⟨.reduce_exposure, 70⟩] else []) ++
  (if currentType ≠ DecisionType.increase_stable ∧ risk.volatility > 0.3 then
    [⟨.increase_stable, 65⟩] else [])

structure Justification where
  forecastExpected : ℚ
  forecastLower : ℚ
  forecastUpper : ℚ
  volatility : ℚ
  var95 : ℚ
  maxDrawdown : ℚ
  dataQuality : ℚ
deriving DecidableEq, Repr

structure RiskAssessment where
  worstCaseLoss : ℚ
  worstCaseLossPct : ℚ
  probabilityOfLoss : ℚ
  recommendedMaxPosition : JsNum
deriving DecidableEq, Repr

/-- Mirrors `DecisionRecommendation` (decisionEngine.ts lines 24-70): the numeric and
enumerated fields.  `title`, `description` and `generatedAt` (wall clock) are
presentational and not modelled. -/
structure DecisionRecommendation where
  type : DecisionType
  confidenceScore : JsNum
  urgency : Urgency
  justification : Justification
  riskAssessment : RiskAssessment
  suggestedAction : SuggestedAction
  alternatives : List DecisionAlternative
deriving DecidableEq, Repr

/-- Mirrors `generateDecision` (decisionEngine.ts lines 140-204).  The division
`maxAcceptableLoss / risk.var95` has no zero guard in the source, so
`recommendedMaxPosition` is a `JsNum`. -/
def generateDecision (expQ : ℚ → ℚ) (sqrt2q : ℚ) (forecast : ForecastResult)
    (risk : RiskMetrics) (positionValue : ℚ) (priceData : ProcessedPriceData) :
    DecisionRecommendation :=
  let dataQuality := calculateDataQuality forecast risk priceData
  let decisionType := determineDecisionType forecast risk positionValue
  let probLoss := calculateProbabilityOfLoss expQ sqrt2q forecast positionValue
  let worstCaseLoss := positionValue * risk.cvar95
  let worstCaseLossPct := risk.cvar95
  let maxAcceptableLoss := positionValue * 0.05
  let recommendedMaxPosition := jsDivQ maxAcceptableLoss risk.var95
  let justification : Justification :=
    ⟨forecast.expectedValue, forecast.lowerBound, forecast.upperBound,
      risk.volatility, risk.var95, risk.maxDrawdown, dataQuality⟩
  let urgency := determineUrgency risk probLoss
  let confidenceScore := calculateConfidenceScore dataQuality forecast risk
  let suggestedAction := buildSuggestedAction decisionType positionValue risk
  let alternatives := generateAlternatives decisionType risk
  { type := decisionType
    confidenceScore := confidenceScore
    urgency := urgency
    justification := justification
    riskAssessment :=
      ⟨worstCaseLoss, worstCaseLossPct, probLoss, recommendedMaxPosition⟩
    suggestedAction := suggestedAction
    alternatives := alternatives }

/-! ## Portfolio Allocator (src/unnamed/part_006) -/

/-- Mirrors `allocations` record over exactly the three buckets
(`Record<AllocationBucket, number>` in the source). -/
structure Allocations where
  CASH : ℚ
  STABLE_EARN : ℚ
  SOL_STAKING : ℚ
deriving DecidableEq, Repr

structure AllocationInputs where
  totalUSD : ℚ
  stableEarnApy : ℚ
  solStakingApy : ℚ
  solRisk : RiskMetrics
  maxVar95LossPct : ℚ
  maxUncertainty : ℚ
  currentRelativeUncertainty : ℚ
  horizonDays : ℚ
  stepPct : Option ℚ
deriving DecidableEq, Repr

/-- Mirrors `AllocationPlan` (part_006 lines 39-47); the `reasoning` string list built
by `buildReasoning` is a formatted rendering aid and is not modelled. -/
structure AllocationPlan where
  horizonDays : ℚ
  allocations : Allocations
  expectedReturnUSD : ℚ
  worstCaseLossUSD : ℚ
  worstCaseLossPct : ℚ
  objectiveScore : ℚ
deriving DecidableEq, Repr

/-- Mirrors `expectedReturnOverHorizon` (part_006 lines 52-55). -/
def expectedReturnOverHorizon (totalUSD apy horizonDays : ℚ) : ℚ :=
  let daily := apy / 365
  totalUSD * daily * horizonDays

/-- Mirrors `worstCaseLossSol` (part_006 lines 61-64). -/
def worstCaseLossSol (solUSD : ℚ) (solRisk : RiskMetrics) : ℚ :=
  solUSD * |solRisk.cvar95|

/-- JS `Number.prototype.toFixed(4)` followed by unary `+`: round to four
decimal places (ties up; all arguments at the call site are nonnegative, where
this agrees with JS rounding away from zero). -/
def toFixed4 (q : ℚ) : ℚ := ((round (q * 10000) : ℤ) : ℚ) / 10000

/-- The candidate percentages of `optimizeAllocation` (part_006 line 79):
`for (let x = 0; x <= 1 + 1e-9; x += step) candidates.push(min(1, max(0, +x.toFixed(4))))`.
At the call site `step ≥ 1/100`, so the loop index never reaches 201 and the
monotone bound check makes the filtered range equal to the loop enumeration. -/
def candidateList (step : ℚ) : List ℚ :=
  ((List.range 201).filter (fun k => (k : ℚ) * step ≤ 1 + 1 / 1000000000)).map
    (fun k => min 1 (max 0 (toFixed4 ((k : ℚ) * step))))

/-- Clamped discretization step (part_006 lines 70-71):
`stepPct = max(1, min(20, input.stepPct ?? 5)); step = stepPct / 100`. -/
def allocStepSize (input : AllocationInputs) : ℚ :=
  max 1 (min 20 (input.stepPct.getD 5)) / 100

def allocCandidates (input : AllocationInputs) : List ℚ :=
  candidateList (allocStepSize input)

/-- Body of the inner `stablePct` loop of `optimizeAllocation`
(part_006 lines 85-129), acting on the running best plan. -/
def allocInnerStep (input : AllocationInputs) (solPct : ℚ)
    (best : Option AllocationPlan) (stablePct : ℚ) : Option AllocationPlan :=
  let cashPct := 1 - solPct - stablePct
  if cashPct < -(1 / 1000000000) then best
  else
    let cash := max 0 cashPct
    let solUSD := input.totalUSD * solPct
    let varLossPct := |input.solRisk.var95|
    let varLossUSD := solUSD * varLossPct
    let maxAllowedVarUSD := solUSD * input.maxVar95LossPct
    if varLossUSD > maxAllowedVarUSD + 1 / 1000000000 then best
    else
      let expectedStable := expectedReturnOverHorizon (input.totalUSD * stablePct)
        input.stableEarnApy input.horizonDays
      let expectedSol := expectedReturnOverHorizon solUSD input.solStakingApy input.horizonDays
      let expectedCash : ℚ := 0
      let expectedReturn := expectedStable + expectedSol + expectedCash
      let worstLoss := worstCaseLossSol solUSD input.solRisk
      let worstLossPct := if input.totalUSD > 0 then worstLoss / input.totalUSD else 0
      let lambda : ℚ := 0.35
      let score := expectedReturn - lambda * worstLoss
      let plan : AllocationPlan :=
        { horizonDays := input.horizonDays
          allocations := ⟨cash, stablePct, solPct⟩
          expectedReturnUSD := expectedReturn
          worstCaseLossUSD := worstLoss
          worstCaseLossPct := worstLossPct
          objectiveScore := score }
      match best with
      | none => some plan
      | some b => if plan.objectiveScore > b.objectiveScore then some plan else some b

/-- Body of the outer `solPct` loop of `optimizeAllocation`
(part_006 lines 81-130), including the hard uncertainty gate
`if (uncertaintyTooHigh && solPct > 0) continue`. -/
def allocOuterStep (input : AllocationInputs) (candidates : List ℚ)
    (best : Option AllocationPlan) (solPct : ℚ) : Option AllocationPlan :=
  if input.currentRelativeUncertainty > input.maxUncertainty ∧ solPct > 0 then best
  else candidates.foldl (allocInnerStep input solPct) best

/-- Fallback plan (part_006 lines 133-143): 100% stable earn. -/
def allocFallback (input : AllocationInputs) : AllocationPlan :=
  { horizonDays := input.horizonDays
    allocations := ⟨0, 1, 0⟩
    expectedReturnUSD := expectedReturnOverHorizon input.totalUSD input.stableEarnApy
      input.horizonDays
    worstCaseLossUSD := 0
    worstCaseLossPct := 0
    objectiveScore := 0 }

/-- Mirrors `optimizeAllocation` (part_006 lines 69-147): brute-force discrete search;
`reasoning` (a rendering aid) is not modelled. -/
def optimizeAllocation (input : AllocationInputs) : AllocationPlan :=
  match (allocCandidates input).foldl
      (allocOuterStep input (allocCandidates input)) none with
  | some b => b
  | none => allocFallback input

/-! ## Forecast Engine ensemble (src/src/lib/forecastEngine.ts)

The three component models (`forecastRollingRegression`,
`forecastExponentialSmoothing`, `forecastMeanReversion`) compute with
`Math.log`/`Math.sqrt`/`Math.exp` over the price store; for the ensemble claim
only their results matter, so `forecastEnsemble` is embedded with the three
model invocations abstracted as `Option ForecastResult` parameters (`some`
exactly when the model succeeds) while the combination logic of lines 346-398
is embedded exactly. -/

/-- Mirrors `f.rmse || 1` — JS falsiness: an absent or zero RMSE falls back to 1. -/
def rmseOrOne (f : ForecastResult) : ℚ :=
  match f.rmse with
  | none => 1
  | some r => if r = 0 then 1 else r

/-- Combination step of `forecastEnsemble` (forecastEngine.ts lines 346-398):
none for an empty list, the unique forecast unchanged for a singleton, and
otherwise inverse-squared-RMSE weighting of point estimates with the interval
union (min of lower bounds, max of upper bounds). -/
def ensembleCombine (forecasts : List ForecastResult) (horizon confidenceLevel : ℚ) :
    Option ForecastResult :=
  match forecasts with
  | [] => none
  | [f] => some f
  | f :: g :: rest =>
    let fs := f :: g :: rest
    let weights := fs.map (fun x => 1 / (rmseOrOne x * rmseOrOne x))
    let totalWeight := weights.sum
    let normalizedWeights := weights.map (fun w => w / totalWeight)
    let expectedValue := ((fs.zip normalizedWeights).map
      (fun p => p.1.expectedValue * p.2)).sum
    let lowerBound := listMinD (fs.map (fun x => x.lowerBound)) 0
    let upperBound := listMaxD (fs.map (fun x => x.upperBound)) 0
    let errorMargin := (upperBound - lowerBound) / 2
    let ensembleRmse := ((fs.zip normalizedWeights).map
      (fun p => rmseOrOne p.1 * p.2)).sum
    some
      { expectedValue := expectedValue
        lowerBound := lowerBound
        upperBound := upperBound
        errorMargin := errorMargin
        confidenceLevel := confidenceLevel
        model := "ensemble"
        inputDataPoints := listMaxNat (fs.map (fun x => x.inputDataPoints)) 0
        forecastHorizon := horizon
        rSquared := none
        rmse := some ensembleRmse }

/-- Mirrors `forecastEnsemble` (forecastEngine.ts lines 329-399): push the successful
model results in source order (regression, smoothing, mean reversion) and
combine. -/
def forecastEnsemble (regression smoothing meanRev : Option ForecastResult)
    (horizon confidenceLevel : ℚ) : Option ForecastResult :=
  ensembleCombine ([regression, smoothing, meanRev].filterMap id) horizon confidenceLevel

/-! ## Mathematical Risk Engine (src/unnamed/part_007)

The engine reads the price window of a symbol from the market-history store;
here each function takes that window (`prices`) directly, with `Math.log` and
`Math.sqrt` abstracted as `logQ`/`sqrtQ`. -/

/-- Per-step log returns `ln(P_i / P_{i-1})` (part_007 lines 67-71). -/
def logReturns (logQ : ℚ → ℚ) (prices : List ℚ) : List ℚ :=
  (prices.zip prices.tail).map (fun p => logQ (p.2 / p.1))

/-- Mirrors `getZScore` (part_007 lines 340-350): table lookup with 1.645 fallback. -/
def getZScore (confidenceLevel : ℚ) : ℚ :=
  if confidenceLevel = 0.8 then 0.842
  else if confidenceLevel = 0.9 then 1.282
  else if confidenceLevel = 0.95 then 1.645
  else if confidenceLevel = 0.99 then 2.326
  else if confidenceLevel = 0.999 then 3.090
  else 1.645

/-- Mirrors `calculateVaRHistorical` (part_007 lines 55-87).  The percentile index is
within bounds whenever `confidenceLevel > 0`, so the `getD` default is never
taken on that domain. -/
def calculateVaRHistorical (logQ : ℚ → ℚ) (prices : List ℚ)
    (confidenceLevel positionValue : ℚ) : ℚ × ℚ :=
  if prices.length < 10 then (0, 0)
  else
    let returns := logReturns logQ prices
    let sortedReturns := returns.insertionSort (· ≤ ·)
    let percentileIndex : ℤ := ⌊(1 - confidenceLevel) * returns.length⌋
    let varReturn := sortedReturns.getD (max 0 percentileIndex).toNat 0
    let varRelative := |varReturn|
    (varRelative, varRelative * positionValue)

/-- Mirrors `calculateVaRParametric` (part_007 lines 105-141); `standardDeviation` is
`sqrtQ` of the population variance, as in `simple-statistics`. -/
def calculateVaRParametric (logQ sqrtQ : ℚ → ℚ) (prices : List ℚ)
    (confidenceLevel positionValue timeHorizon : ℚ) : ℚ × ℚ :=
  if prices.length < 10 then (0, 0)
  else
    let returns := logReturns logQ prices
    let mu := listMean returns
    let sigma := sqrtQ (popVariance returns)
    let zScore := getZScore confidenceLevel
    let horizonScale := sqrtQ timeHorizon
    let varReturn := -(mu - zScore * sigma * horizonScale)
    let varRelative := max 0 varReturn
    (varRelative, varRelative * positionValue)

/-- Mirrors `calculateCVaR` (part_007 lines 155-191): mean of the returns strictly
below the negated historical VaR, falling back to the VaR itself when the tail
is empty. -/
def calculateCVaR (logQ : ℚ → ℚ) (prices : List ℚ)
    (confidenceLevel positionValue : ℚ) : ℚ × ℚ :=
  if prices.length < 10 then (0, 0)
  else
    let returns := logReturns logQ prices
    let varRelative := (calculateVaRHistorical logQ prices confidenceLevel 1).1
    let varThreshold := -varRelative
    let tailReturns := returns.filter (fun r => r < varThreshold)
    if tailReturns.length = 0 then (varRelative, varRelative * positionValue)
    else
      let cvarReturn := listMean tailReturns
      let cvarRelative := |cvarReturn|
      (cvarRelative, cvarRelative * positionValue)

/-! ## Cashflow Forecast Engine (src/src/lib/cashflowEngine.ts) -/

/-- Mirrors `CashflowEvent` (cashflowEngine.ts lines 18-27); the optional category and
description labels are never read by the computation and are not modelled. -/
structure CashflowEvent where
  timestamp : ℚ
  amount : ℚ
deriving DecidableEq, Repr

/-- Mirrors `CashflowForecastResult` (cashflowEngine.ts lines 29-46); the fixed
`assumptions` string list is documentation and is not modelled. -/
structure CashflowForecastResult where
  horizonDays : ℚ
  confidenceLevel : ℚ
  startingBalance : ℚ
  expectedEndingBalance : ℚ
  lowerBound : ℚ
  upperBound : ℚ
  errorMargin : ℚ
  inputDays : ℕ
  meanDailyNet : ℚ
  stdDailyNet : ℚ
  probabilityOfOverdraft : ℚ
deriving DecidableEq, Repr

def dayMs : ℚ := 24 * 60 * 60 * 1000

/-- Mirrors `toDailyNetFlows` (cashflowEngine.ts lines 51-63), with `Date.now()`
passed explicitly as `now`.  `Int.toNat` is exactly the `Math.max(0, ...)`
clamp of the floored index; the `days - 1` cap uses truncated subtraction,
which only differs from JS at `days = 0`, where the bucket list is empty
either way. -/
def toDailyNetFlows (now : ℚ) (events : List CashflowEvent) (days : ℕ) : List ℚ :=
  let start := now - (days : ℚ) * dayMs
  events.foldl (fun buckets e =>
    if e.timestamp < start ∨ e.timestamp > now then buckets
    else
      let idx := min (days - 1) (⌊(e.timestamp - start) / dayMs⌋.toNat)
      buckets.set idx (buckets.getD idx 0 + e.amount))
    (List.replicate days 0)

/-- Mirrors `getZValue` (cashflowEngine.ts lines 116-122). -/
def getZValueCashflow (confidenceLevel : ℚ) : ℚ :=
  if confidenceLevel ≥ 0.99 then 2.576
  else if confidenceLevel ≥ 0.95 then 1.96
  else if confidenceLevel ≥ 0.90 then 1.645
  else 1.28

/-- Mirrors `normalCdf` (cashflowEngine.ts lines 125-139): Abramowitz-Stegun
approximation with `Math.exp` abstracted as `expQ`. -/
def normalCdf (expQ : ℚ → ℚ) (z : ℚ) : ℚ :=
  let t := 1 / (1 + 0.2316419 * |z|)
  let d := 0.3989423 * expQ (-z * z / 2)
  let p := d * t * (0.3193815 + t * (-0.3565638 + t * (1.781478 + t *
    (-1.821256 + t * 1.330274))))
  if z > 0 then 1 - p else p

/-- Mirrors `forecastCashflow` (cashflowEngine.ts lines 70-114). -/
def forecastCashflow (sqrtQ expQ : ℚ → ℚ) (now startingBalance : ℚ)
    (events : List CashflowEvent) (horizonDays : ℚ) (lookbackDays : ℕ)
    (confidenceLevel : ℚ) : Option CashflowForecastResult :=
  let daily := toDailyNetFlows now events lookbackDays
  if ¬ daily.any (fun v => v ≠ 0) then none
  else
    let mu := listMean daily
    let sigma := if daily.length ≥ 2 then sqrtQ (popVariance daily) else 0
    let expectedEnding := startingBalance + horizonDays * mu
    let z := getZValueCashflow confidenceLevel
    let err := z * sigma * sqrtQ horizonDays
    let denom := sigma * sqrtQ horizonDays
    let pOverdraft := if denom > 0 then normalCdf expQ ((0 - expectedEnding) / denom)
      else if expectedEnding < 0 then 1 else 0
    some
      { horizonDays := horizonDays
        confidenceLevel := confidenceLevel
        startingBalance := startingBalance
        expectedEndingBalance := expectedEnding
        lowerBound := expectedEnding - err
        upperBound := expectedEnding + err
        errorMargin := err
        inputDays := lookbackDays
        meanDailyNet := mu
        stdDailyNet := sigma
        probabilityOfOverdraft := pOverdraft }

/-- Thirty days of daily net -20: one event of amount -20 at the start of each of
the 30 lookback days (relative to `now = 30 * dayMs`). -/
def scenarioEvents : List CashflowEvent :=
  (List.range 30).map (fun (k : ℕ) => ⟨(k : ℚ) * dayMs, -20⟩)

/-! ## Portfolio-level risk (src/unnamed/part_007, `calculatePortfolioRisk`)
and the Time-Series Store's totalReturn (src/unnamed/part_004). -/

structure Position where
  symbol : String
  value : ℚ
deriving DecidableEq, Repr

/-- Mirrors `calculatePortfolioRisk` (part_007 lines 281-335).  The per-position call
`calculateRiskMetrics(symbol, value)` — which reads the global price store and
computes with transcendental functions — is abstracted as `metricsOf`;
`Math.sqrt(365)` is `sqrtQ 365`.  The single loop accumulating the three
weighted sums is written as three sums over the same traversal; rational
addition is associative and commutative, so the values agree.  Returns the
metrics together with the extra `diversification` field. -/
def calculatePortfolioRisk (sqrtQ : ℚ → ℚ) (metricsOf : String → ℚ → RiskMetrics)
    (positions : List Position) : RiskMetrics × ℚ :=
  let totalValue := (positions.map (fun p => p.value)).sum
  if totalValue = 0 ∨ positions.length = 0 then
    (⟨0, 0, 0, 0, 0, 0, 0, 0, 0, 0, 0⟩, 0)
  else
    let weightedVar95 := (positions.map
      (fun p => (metricsOf p.symbol p.value).var95 * (p.value / totalValue))).sum
    let weightedVol := (positions.map
      (fun p => (metricsOf p.symbol p.value).volatility * (p.value / totalValue))).sum
    let weightedUncertainty := (positions.map
      (fun p => (metricsOf p.symbol p.value).relativeUncertainty * (p.value / totalValue))).sum
    let diversification : ℚ := if positions.length > 1 then 0.85 else 1.0
    (⟨weightedVol * diversification,
      weightedVol * diversification / sqrtQ 365,
      weightedVar95 * diversification,
      weightedVar95 * 1.5 * diversification,
      weightedVar95 * 1.2 * diversification,
      weightedVar95 * 1.8 * diversification,
      weightedVar95 * 2,
      0,
      weightedUncertainty,
      totalValue,
      weightedVar95 * totalValue * diversification⟩,
     diversification)

/-- Value-weighted sum of one projected metric over the positions. -/
def weightedMetricSum (metricsOf : String → ℚ → RiskMetrics) (positions : List Position)
    (total : ℚ) (proj : RiskMetrics → ℚ) : ℚ :=
  (positions.map (fun p => proj (metricsOf p.symbol p.value) * (p.value / total))).sum

/-- The `totalReturn` field of `getStatistics` (part_004 lines 240-258): null
below 2 points, otherwise `(last - first) / first` with JS division (no zero
guard on the first price, which `addPrice` accepts as 0). -/
def totalReturnOf (prices : List ℚ) : Option JsNum :=
  if prices.length < 2 then none
  else some (jsDivQ (prices.getD (prices.length - 1) 0 - prices.getD 0 0)
    (prices.getD 0 0))

/-! ## Theorems -/

theorem popVariance_nonneg (xs : List ℚ) : 0 ≤ popVariance xs := by
  unfold popVariance
  apply div_nonneg
  · apply List.sum_nonneg
    intro x hx
    rcases List.mem_map.1 hx with ⟨y, _, rfl⟩
    positivity
  · exact_mod_cast Nat.zero_le _

theorem foldl_min_le_init (t : List ℚ) : ∀ b : ℚ, t.foldl min b ≤ b := by
  induction t with
  | nil => intro b; simp
  | cons a t ih =>
    intro b
    calc (a :: t).foldl min b = t.foldl min (min b a) := rfl
      _ ≤ min b a := ih (min b a)
      _ ≤ b := min_le_left _ _

theorem foldl_min_le_mem (t : List ℚ) : ∀ (b x : ℚ), x ∈ t → t.foldl min b ≤ x := by
  induction t with
  | nil => intro b x hx; cases hx
  | cons a t ih =>
    intro b x hx
    rcases List.mem_cons.1 hx with h | h
    · subst h
      calc (x :: t).foldl min b = t.foldl min (min b x) := rfl
        _ ≤ min b x := foldl_min_le_init t (min b x)
        _ ≤ x := min_le_right _ _
    · exact ih (min b a) x h

theorem le_foldl_max_init (t : List ℚ) : ∀ b : ℚ, b ≤ t.foldl max b := by
  induction t with
  | nil => intro b; simp
  | cons a t ih =>
    intro b
    calc b ≤ max b a := le_max_left _ _
      _ ≤ t.foldl max (max b a) := ih (max b a)
      _ = (a :: t).foldl max b := rfl

theorem le_foldl_max_mem (t : List ℚ) : ∀ (b x : ℚ), x ∈ t → x ≤ t.foldl max b := by
  induction t with
  | nil => intro b x hx; cases hx
  | cons a t ih =>
    intro b x hx
    rcases List.mem_cons.1 hx with h | h
    · subst h
      calc x ≤ max b x := le_max_right _ _
        _ ≤ t.foldl max (max b x) := le_foldl_max_init t (max b x)
    · exact ih (max b a) x h

theorem listMinD_le (xs : List ℚ) (d x : ℚ) (hx : x ∈ xs) : listMinD xs d ≤ x := by
  cases xs with
  | nil => cases hx
  | cons h t =>
    rcases List.mem_cons.1 hx with he | hmem
    · subst he; exact foldl_min_le_init t x
    · exact foldl_min_le_mem t h x hmem

theorem le_listMaxD (xs : List ℚ) (d x : ℚ) (hx : x ∈ xs) : x ≤ listMaxD xs d := by
  cases xs with
  | nil => cases hx
  | cons h t =>
    rcases List.mem_cons.1 hx with he | hmem
    · subst he; exact le_foldl_max_init t x
    · exact le_foldl_max_mem t h x hmem

/-- A fold preserves any predicate that is preserved by each step taken on a
member of the list. -/
theorem foldl_inv {α β : Type} (f : β → α → β) (P : β → Prop) :
    ∀ (l : List α) (b : β), P b → (∀ acc a, P acc → a ∈ l → P (f acc a)) → P (l.foldl f b) := by
  intro l
  induction l with
  | nil => intro b hb _; exact hb
  | cons a t ih =>
    intro b hb hstep
    exact ih (f b a) (hstep b a hb (List.mem_cons_self a t))
      (fun acc x hacc hx => hstep acc x hacc (List.mem_cons_of_mem a hx))

/-- Mean of a nonempty list whose elements are all below `a` is below `a`. -/
theorem listMean_lt_of_forall_lt (xs : List ℚ) (a : ℚ) (hne : xs ≠ [])
    (h : ∀ x ∈ xs, x < a) : listMean xs < a := by
  have hlen : 0 < (xs.length : ℚ) := by
    have : 0 < xs.length := List.length_pos.2 hne
    exact_mod_cast this
  have hsum : xs.sum < a * xs.length := by
    have : ∀ (l : List ℚ), (∀ x ∈ l, x < a) → l ≠ [] → l.sum < a * l.length := by
      intro l
      induction l with
      | nil => intro _ h2; exact absurd rfl h2
      | cons y t ih =>
        intro hall _
        by_cases ht : t = []
        · subst ht
          simpa using hall y (List.mem_cons_self y [])
        · have h1 := hall y (List.mem_cons_self y t)
          have h2 := ih (fun x hx => hall x (List.mem_cons_of_mem y hx)) ht
          have : (y :: t).sum = y + t.sum := List.sum_cons
          rw [this]
          have hlen' : ((y :: t).length : ℚ) = 1 + t.length := by
            simp [List.length_cons]; ring
          rw [hlen', mul_add, mul_one]
          exact add_lt_add h1 h2
    exact this xs h hne
  unfold listMean
  rw [div_lt_iff₀ hlen]
  exact hsum

/-- C1: the Decision Engine classifies by the fixed first-match-wins rule order
of the spec, and with volatility 0.6 and expectedValue below 1.1 times the
lower bound the type is reduce_exposure whatever the other metrics are. -/
theorem C1_decision_type_rule_order (forecast : ForecastResult) (risk : RiskMetrics)
    (positionValue : ℚ) :
    determineDecisionType forecast risk positionValue = determineDecisionTypeSpec forecast risk ∧
    (risk.volatility = 0.6 → forecast.expectedValue < 1.1 * forecast.lowerBound →
      determineDecisionType forecast risk positionValue = DecisionType.reduce_exposure) := by
  constructor
  · unfold determineDecisionType determineDecisionTypeSpec
    rw [mul_comm (1.1 : ℚ) forecast.lowerBound, mul_comm (1.05 : ℚ) forecast.lowerBound]
  · intro hvol hlt
    unfold determineDecisionType
    rw [if_pos]
    constructor
    · rw [hvol]; norm_num
    · rw [mul_comm forecast.lowerBound (1.1 : ℚ)]; exact hlt

/-- Witness for C1 at a concrete forecast and risk-metrics input. -/
theorem C1_decision_type_rule_order_witness :
    (⟨0.6, 0, 0, 0, 0, 0, 0, 0, 0, 0, 0⟩ : RiskMetrics).volatility = 0.6 ∧
    (⟨100, 95, 120, 10, 0.95, "ensemble", 25, 7, none, none⟩ : ForecastResult).expectedValue <
      1.1 * (⟨100, 95, 120, 10, 0.95, "ensemble", 25, 7, none, none⟩ : ForecastResult).lowerBound ∧
    determineDecisionType ⟨100, 95, 120, 10, 0.95, "ensemble", 25, 7, none, none⟩
      ⟨0.6, 0, 0, 0, 0, 0, 0, 0, 0, 0, 0⟩ 1000 = DecisionType.reduce_exposure := by
  refine ⟨rfl, by norm_num, ?_⟩
  exact (C1_decision_type_rule_order ⟨100, 95, 120, 10, 0.95, "ensemble", 25, 7, none, none⟩
    ⟨0.6, 0, 0, 0, 0, 0, 0, 0, 0, 0, 0⟩ 1000).2 rfl (by norm_num)

/-- C10: with a zero position value the probability of loss is 0 regardless of
the forecast — even in the errorMargin = 0, expectedValue < 0 case where the
sigma = 0 rule would give 1 — and the recommendation's urgency is computed
from this zeroed probability. -/
theorem C10_zero_position_probability_of_loss (expQ : ℚ → ℚ) (sqrt2q : ℚ)
    (forecast : ForecastResult) (risk : RiskMetrics) (priceData : ProcessedPriceData) :
    calculateProbabilityOfLoss expQ sqrt2q forecast 0 = 0 ∧
    (generateDecision expQ sqrt2q forecast risk 0 priceData).riskAssessment.probabilityOfLoss = 0 ∧
    (generateDecision expQ sqrt2q forecast risk 0 priceData).urgency = determineUrgency risk 0 ∧
    (∀ pv : ℚ, pv ≠ 0 → forecast.errorMargin = 0 → forecast.expectedValue < 0 →
      calculateProbabilityOfLoss expQ sqrt2q forecast pv = 1) := by
  have hzero : calculateProbabilityOfLoss expQ sqrt2q forecast 0 = 0 := by
    unfold calculateProbabilityOfLoss
    rw [if_pos rfl]
  refine ⟨hzero, ?_, ?_, ?_⟩
  · show calculateProbabilityOfLoss expQ sqrt2q forecast 0 = 0
    exact hzero
  · show determineUrgency risk (calculateProbabilityOfLoss expQ sqrt2q forecast 0) =
      determineUrgency risk 0
    rw [hzero]
  · intro pv hpv hmargin hneg
    unfold calculateProbabilityOfLoss
    rw [if_neg hpv]
    have hsigma : forecast.errorMargin / (1.96 : ℚ) = 0 := by
      rw [hmargin]; norm_num
    simp [hsigma, hneg]

/-- Witness for C10 at concrete inputs. -/
theorem C10_zero_position_probability_of_loss_witness :
    (1 : ℚ) ≠ 0 ∧
    (⟨-5, 0, 0, 0, 0.95, "mean_reversion", 25, 7, none, none⟩ : ForecastResult).errorMargin = 0 ∧
    (⟨-5, 0, 0, 0, 0.95, "mean_reversion", 25, 7, none, none⟩ : ForecastResult).expectedValue < 0 ∧
    calculateProbabilityOfLoss (fun q => q) 1.4
      ⟨-5, 0, 0, 0, 0.95, "mean_reversion", 25, 7, none, none⟩ 1 = 1 ∧
    calculateProbabilityOfLoss (fun q => q) 1.4
      ⟨-5, 0, 0, 0, 0.95, "mean_reversion", 25, 7, none, none⟩ 0 = 0 := by
  refine ⟨by norm_num, rfl, by norm_num, ?_, ?_⟩
  · exact (C10_zero_position_probability_of_loss (fun q => q) 1.4
      ⟨-5, 0, 0, 0, 0.95, "mean_reversion", 25, 7, none, none⟩
      ⟨0, 0, 0, 0, 0, 0, 0, 0, 0, 0, 0⟩ ⟨false, 0⟩).2.2.2 1 (by norm_num) rfl (by norm_num)
  · exact (C10_zero_position_probability_of_loss (fun q => q) 1.4
      ⟨-5, 0, 0, 0, 0.95, "mean_reversion", 25, 7, none, none⟩
      ⟨0, 0, 0, 0, 0, 0, 0, 0, 0, 0, 0⟩ ⟨false, 0⟩).1

theorem candidateList_nonneg (step x : ℚ) (hx : x ∈ candidateList step) : 0 ≤ x := by
  unfold candidateList at hx
  rcases List.mem_map.1 hx with ⟨k, _, rfl⟩
  exact le_min (by norm_num) (le_max_left 0 _)

theorem ite_some_cases {α : Type} {c : Prop} [Decidable c] {x y b : α}
    (h : (if c then some x else some y) = some b) : b = x ∨ b = y := by
  by_cases hc : c
  · rw [if_pos hc] at h
    exact Or.inl (Option.some.inj h).symm
  · rw [if_neg hc] at h
    exact Or.inr (Option.some.inj h).symm

/-- Any plan produced by a step of the inner loop is either the incoming best
plan or a freshly built candidate whose allocation record and cash feasibility
are explicit. -/
theorem allocInnerStep_cases (input : AllocationInputs) (solPct : ℚ)
    (acc : Option AllocationPlan) (stablePct : ℚ) (b : AllocationPlan)
    (h : allocInnerStep input solPct acc stablePct = some b) :
    acc = some b ∨
      (¬ (1 - solPct - stablePct < -(1 / 1000000000)) ∧
        b.allocations = ⟨max 0 (1 - solPct - stablePct), stablePct, solPct⟩) := by
  unfold allocInnerStep at h
  by_cases h1 : (1 : ℚ) - solPct - stablePct < -(1 / 1000000000)
  · rw [if_pos h1] at h
    exact Or.inl h
  · rw [if_neg h1] at h
    by_cases h2 : input.totalUSD * solPct * |input.solRisk.var95| >
        input.totalUSD * solPct * input.maxVar95LossPct + 1 / 1000000000
    · rw [if_pos h2] at h
      exact Or.inl h
    · rw [if_neg h2] at h
      cases hacc : acc with
      | none =>
        rw [hacc] at h
        simp only [Option.some.injEq] at h
        subst h
        exact Or.inr ⟨h1, rfl⟩
      | some b0 =>
        rw [hacc] at h
        simp only [] at h
        rcases ite_some_cases h with h4 | h4
        · subst h4
          exact Or.inr ⟨h1, rfl⟩
        · subst h4
          exact Or.inl rfl

/-- The running best of the whole search keeps `SOL_STAKING = 0` when the
uncertainty gate is triggered. -/
theorem allocSearch_gate_sol_zero (input : AllocationInputs)
    (hgate : input.currentRelativeUncertainty > input.maxUncertainty) :
    ∀ b, (allocCandidates input).foldl
        (allocOuterStep input (allocCandidates input)) none = some b →
      b.allocations.SOL_STAKING = 0 := by
  apply foldl_inv (allocOuterStep input (allocCandidates input))
    (fun o => ∀ b, o = some b → b.allocations.SOL_STAKING = 0)
  · intro b hb
    cases hb
  · intro acc solPct hacc hmem
    unfold allocOuterStep
    by_cases hskip : input.currentRelativeUncertainty > input.maxUncertainty ∧ solPct > 0
    · rw [if_pos hskip]
      exact hacc
    · rw [if_neg hskip]
      have hsol0 : solPct = 0 := by
        have hle : ¬ solPct > 0 := fun hpos => hskip ⟨hgate, hpos⟩
        exact le_antisymm (not_lt.1 hle) (candidateList_nonneg _ solPct hmem)
      apply foldl_inv (allocInnerStep input solPct)
        (fun o => ∀ b, o = some b → b.allocations.SOL_STAKING = 0) _ acc hacc
      intro acc2 stablePct hacc2 _ b hb
      rcases allocInnerStep_cases input solPct acc2 stablePct b hb with heq | ⟨_, hall⟩
      · exact hacc2 b heq
      · rw [hall]
        exact hsol0

/-- C2: whenever the current relative uncertainty exceeds the configured
maximum, the plan returned by `optimizeAllocation` has a SOL_STAKING
allocation of exactly 0, whatever the other inputs are. -/
theorem C2_uncertainty_gate_forces_sol_zero (input : AllocationInputs)
    (hgate : input.currentRelativeUncertainty > input.maxUncertainty) :
    (optimizeAllocation input).allocations.SOL_STAKING = 0 := by
  unfold optimizeAllocation
  cases hres : (allocCandidates input).foldl
      (allocOuterStep input (allocCandidates input)) none with
  | none => rfl
  | some b => exact allocSearch_gate_sol_zero input hgate b hres

/-- Witness for C2: the spec's scenario, uncertainty 0.02 against a ceiling of
0.01, with nonzero risk and yields. -/
theorem C2_uncertainty_gate_forces_sol_zero_witness :
    (⟨1000, 0.06, 0.07, ⟨0.5, 0.03, 0.08, 0.12, 0.1, 0.15, 0.2, 0.05, 0.02, 1000, 80⟩,
        0.1, 0.01, 0.02, 7, some 20⟩ : AllocationInputs).currentRelativeUncertainty >
      (⟨1000, 0.06, 0.07, ⟨0.5, 0.03, 0.08, 0.12, 0.1, 0.15, 0.2, 0.05, 0.02, 1000, 80⟩,
        0.1, 0.01, 0.02, 7, some 20⟩ : AllocationInputs).maxUncertainty ∧
    (optimizeAllocation ⟨1000, 0.06, 0.07,
        ⟨0.5, 0.03, 0.08, 0.12, 0.1, 0.15, 0.2, 0.05, 0.02, 1000, 80⟩,
        0.1, 0.01, 0.02, 7, some 20⟩).allocations.SOL_STAKING = 0 := by
  constructor
  · norm_num
  · exact C2_uncertainty_gate_forces_sol_zero _ (by norm_num)

/-- The running best of the whole search always sums to 1 within 1e-6. -/
theorem allocSearch_sum_close (input : AllocationInputs) :
    ∀ b, (allocCandidates input).foldl
        (allocOuterStep input (allocCandidates input)) none = some b →
      |b.allocations.CASH + b.allocations.STABLE_EARN + b.allocations.SOL_STAKING - 1| ≤
        1 / 1000000 := by
  apply foldl_inv (allocOuterStep input (allocCandidates input))
    (fun o => ∀ b, o = some b →
      |b.allocations.CASH + b.allocations.STABLE_EARN + b.allocations.SOL_STAKING - 1| ≤
        1 / 1000000)
  · intro b hb
    cases hb
  · intro acc solPct hacc _
    unfold allocOuterStep
    by_cases hskip : input.currentRelativeUncertainty > input.maxUncertainty ∧ solPct > 0
    · rw [if_pos hskip]
      exact hacc
    · rw [if_neg hskip]
      apply foldl_inv (allocInnerStep input solPct)
        (fun o => ∀ b, o = some b →
          |b.allocations.CASH + b.allocations.STABLE_EARN + b.allocations.SOL_STAKING - 1| ≤
            1 / 1000000) _ acc hacc
      intro acc2 stablePct hacc2 _ b hb
      rcases allocInnerStep_cases input solPct acc2 stablePct b hb with heq | ⟨hcash, hall⟩
      · exact hacc2 b heq
      · rw [hall]
        show |max 0 (1 - solPct - stablePct) + stablePct + solPct - 1| ≤ 1 / 1000000
        rw [not_lt] at hcash
        by_cases hpos : (0 : ℚ) ≤ 1 - solPct - stablePct
        · rw [max_eq_right hpos]
          have : 1 - solPct - stablePct + stablePct + solPct - 1 = 0 := by ring
          rw [this]
          norm_num
        · rw [max_eq_left (le_of_lt (not_le.1 hpos))]
          have heq2 : (0 : ℚ) + stablePct + solPct - 1 = -(1 - solPct - stablePct) := by ring
          rw [heq2, abs_of_pos (by linarith [not_le.1 hpos])]
          linarith [hcash]

/-- C5: the three allocation fractions of the plan returned by
`optimizeAllocation` sum to 1 within a tolerance of 1e-6, for every input. -/
theorem C5_allocations_sum_to_one (input : AllocationInputs) :
    |(optimizeAllocation input).allocations.CASH +
        (optimizeAllocation input).allocations.STABLE_EARN +
        (optimizeAllocation input).allocations.SOL_STAKING - 1| ≤ 1 / 1000000 := by
  unfold optimizeAllocation
  cases hres : (allocCandidates input).foldl
      (allocOuterStep input (allocCandidates input)) none with
  | none =>
    show |(0 : ℚ) + 1 + 0 - 1| ≤ 1 / 1000000
    norm_num
  | some b => exact allocSearch_sum_close input b hres

/-- With at least two forecasts the combined interval is the union of the
component intervals. -/
theorem ensembleCombine_pair_spec (f g : ForecastResult) (rest : List ForecastResult)
    (h c : ℚ) :
    ∃ r, ensembleCombine (f :: g :: rest) h c = some r ∧
      r.lowerBound = listMinD ((f :: g :: rest).map (fun x => x.lowerBound)) 0 ∧
      r.upperBound = listMaxD ((f :: g :: rest).map (fun x => x.upperBound)) 0 ∧
      ∀ x ∈ f :: g :: rest, r.lowerBound ≤ x.lowerBound ∧ x.upperBound ≤ r.upperBound := by
  refine ⟨_, rfl, rfl, rfl, ?_⟩
  intro x hx
  constructor
  · exact listMinD_le _ 0 _ (List.mem_map_of_mem (fun y => y.lowerBound) hx)
  · exact le_listMaxD _ 0 _ (List.mem_map_of_mem (fun y => y.upperBound) hx)

/-- C3: when at least two of the three models succeed the ensemble's bounds
are the minimum of the succeeding lower bounds and the maximum of the
succeeding upper bounds — so the ensemble interval contains every individual
interval — and when exactly one succeeds that result is returned unchanged. -/
theorem C3_ensemble_interval_union (m1 m2 m3 : Option ForecastResult)
    (horizon conf : ℚ) :
    (2 ≤ ([m1, m2, m3].filterMap id).length →
      ∃ r, forecastEnsemble m1 m2 m3 horizon conf = some r ∧
        r.lowerBound = listMinD (([m1, m2, m3].filterMap id).map (fun f => f.lowerBound)) 0 ∧
        r.upperBound = listMaxD (([m1, m2, m3].filterMap id).map (fun f => f.upperBound)) 0 ∧
        ∀ f ∈ [m1, m2, m3].filterMap id,
          r.lowerBound ≤ f.lowerBound ∧ f.upperBound ≤ r.upperBound) ∧
    (([m1, m2, m3].filterMap id).length = 1 →
      ∀ f ∈ [m1, m2, m3].filterMap id, forecastEnsemble m1 m2 m3 horizon conf = some f) := by
  cases m1 with
  | none => cases m2 with
    | none => cases m3 with
      | none =>
        exact ⟨fun h2 => by simp at h2, fun h1 f hf => by simp at hf⟩
      | some c3 =>
        refine ⟨fun h2 => by simp at h2, fun _ f hf => ?_⟩
        have : f = c3 := by simpa using hf
        subst this
        rfl
    | some c2 => cases m3 with
      | none =>
        refine ⟨fun h2 => by simp at h2, fun _ f hf => ?_⟩
        have : f = c2 := by simpa using hf
        subst this
        rfl
      | some c3 =>
        refine ⟨fun _ => ensembleCombine_pair_spec c2 c3 [] horizon conf,
          fun h1 => by simp at h1⟩
  | some c1 => cases m2 with
    | none => cases m3 with
      | none =>
        refine ⟨fun h2 => by simp at h2, fun _ f hf => ?_⟩
        have : f = c1 := by simpa using hf
        subst this
        rfl
      | some c3 =>
        refine ⟨fun _ => ensembleCombine_pair_spec c1 c3 [] horizon conf,
          fun h1 => by simp at h1⟩
    | some c2 => cases m3 with
      | none =>
        refine ⟨fun _ => ensembleCombine_pair_spec c1 c2 [] horizon conf,
          fun h1 => by simp at h1⟩
      | some c3 =>
        refine ⟨fun _ => ensembleCombine_pair_spec c1 c2 [c3] horizon conf,
          fun h1 => by simp at h1⟩

/-- Witness for C3 with two concrete succeeding model results. -/
theorem C3_ensemble_interval_union_witness :
    2 ≤ ([some (⟨100, 90, 110, 10, 0.95, "rolling_regression", 12, 7, some 0.9, some 2⟩ :
        ForecastResult),
      some (⟨102, 95, 120, 12, 0.95, "exponential_smoothing", 12, 7, none, some 3⟩ :
        ForecastResult), (none : Option ForecastResult)].filterMap id).length ∧
    (∃ r, forecastEnsemble
        (some ⟨100, 90, 110, 10, 0.95, "rolling_regression", 12, 7, some 0.9, some 2⟩)
        (some ⟨102, 95, 120, 12, 0.95, "exponential_smoothing", 12, 7, none, some 3⟩)
        none 7 0.95 = some r ∧
      r.lowerBound = listMinD (([some (⟨100, 90, 110, 10, 0.95, "rolling_regression", 12, 7,
          some 0.9, some 2⟩ : ForecastResult),
        some (⟨102, 95, 120, 12, 0.95, "exponential_smoothing", 12, 7, none, some 3⟩ :
          ForecastResult), (none : Option ForecastResult)].filterMap id).map
          (fun f => f.lowerBound)) 0 ∧
      r.upperBound = listMaxD (([some (⟨100, 90, 110, 10, 0.95, "rolling_regression", 12, 7,
          some 0.9, some 2⟩ : ForecastResult),
        some (⟨102, 95, 120, 12, 0.95, "exponential_smoothing", 12, 7, none, some 3⟩ :
          ForecastResult), (none : Option ForecastResult)].filterMap id).map
          (fun f => f.upperBound)) 0 ∧
      ∀ f ∈ [some (⟨100, 90, 110, 10, 0.95, "rolling_regression", 12, 7, some 0.9, some 2⟩ :
          ForecastResult),
        some (⟨102, 95, 120, 12, 0.95, "exponential_smoothing", 12, 7, none, some 3⟩ :
          ForecastResult), (none : Option ForecastResult)].filterMap id,
        r.lowerBound ≤ f.lowerBound ∧ f.upperBound ≤ r.upperBound) := by
  constructor
  · simp
  · exact (C3_ensemble_interval_union
      (some ⟨100, 90, 110, 10, 0.95, "rolling_regression", 12, 7, some 0.9, some 2⟩)
      (some ⟨102, 95, 120, 12, 0.95, "exponential_smoothing", 12, 7, none, some 3⟩)
      none 7 0.95).1 (by simp)

theorem calculateVaRParametric_fst (logQ sqrtQ : ℚ → ℚ) (prices : List ℚ)
    (c pv h : ℚ) (hlen : ¬ prices.length < 10) :
    (calculateVaRParametric logQ sqrtQ prices c pv h).1 =
      max 0 (-(listMean (logReturns logQ prices) -
        getZScore c * sqrtQ (popVariance (logReturns logQ prices)) * sqrtQ h)) := by
  unfold calculateVaRParametric
  rw [if_neg hlen]

/-- C8: for a fixed price series, position value and time horizon, the
parametric VaR is non-decreasing across the confidence levels 0.90, 0.95,
0.99. -/
theorem C8_parametric_var_monotone (logQ sqrtQ : ℚ → ℚ) (prices : List ℚ)
    (positionValue timeHorizon : ℚ)
    (hsqrt : ∀ x : ℚ, 0 ≤ x → 0 ≤ sqrtQ x) (hhor : 0 ≤ timeHorizon) :
    (calculateVaRParametric logQ sqrtQ prices 0.9 positionValue timeHorizon).1 ≤
      (calculateVaRParametric logQ sqrtQ prices 0.95 positionValue timeHorizon).1 ∧
    (calculateVaRParametric logQ sqrtQ prices 0.95 positionValue timeHorizon).1 ≤
      (calculateVaRParametric logQ sqrtQ prices 0.99 positionValue timeHorizon).1 := by
  by_cases hlen : prices.length < 10
  · unfold calculateVaRParametric
    simp only [if_pos hlen]
    exact ⟨le_refl 0, le_refl 0⟩
  · have hσ : 0 ≤ sqrtQ (popVariance (logReturns logQ prices)) :=
      hsqrt _ (popVariance_nonneg _)
    have hhs : 0 ≤ sqrtQ timeHorizon := hsqrt _ hhor
    have hmono : ∀ z1 z2 : ℚ, z1 ≤ z2 →
        max 0 (-(listMean (logReturns logQ prices) -
          z1 * sqrtQ (popVariance (logReturns logQ prices)) * sqrtQ timeHorizon)) ≤
        max 0 (-(listMean (logReturns logQ prices) -
          z2 * sqrtQ (popVariance (logReturns logQ prices)) * sqrtQ timeHorizon)) := by
      intro z1 z2 hz
      apply max_le_max (le_refl 0)
      have : z1 * sqrtQ (popVariance (logReturns logQ prices)) * sqrtQ timeHorizon ≤
          z2 * sqrtQ (popVariance (logReturns logQ prices)) * sqrtQ timeHorizon := by
        apply mul_le_mul_of_nonneg_right _ hhs
        exact mul_le_mul_of_nonneg_right hz hσ
      linarith
    have h90 : getZScore 0.9 = 1.282 := by norm_num [getZScore]
    have h95 : getZScore 0.95 = 1.645 := by norm_num [getZScore]
    have h99 : getZScore 0.99 = 2.326 := by norm_num [getZScore]
    rw [calculateVaRParametric_fst logQ sqrtQ prices 0.9 positionValue timeHorizon hlen,
      calculateVaRParametric_fst logQ sqrtQ prices 0.95 positionValue timeHorizon hlen,
      calculateVaRParametric_fst logQ sqrtQ prices 0.99 positionValue timeHorizon hlen,
      h90, h95, h99]
    exact ⟨hmono 1.282 1.645 (by norm_num), hmono 1.645 2.326 (by norm_num)⟩

/-- Witness for C8 on a concrete 12-point series. -/
theorem C8_parametric_var_monotone_witness :
    (∀ x : ℚ, 0 ≤ x → 0 ≤ x) ∧ (0 : ℚ) ≤ 1 ∧
    (calculateVaRParametric (fun q => q - 1) (fun x => x)
        (List.replicate 12 1) 0.9 100 1).1 ≤
      (calculateVaRParametric (fun q => q - 1) (fun x => x)
        (List.replicate 12 1) 0.95 100 1).1 ∧
    (calculateVaRParametric (fun q => q - 1) (fun x => x)
        (List.replicate 12 1) 0.95 100 1).1 ≤
      (calculateVaRParametric (fun q => q - 1) (fun x => x)
        (List.replicate 12 1) 0.99 100 1).1 := by
  refine ⟨fun x hx => hx, by norm_num, ?_, ?_⟩
  · exact (C8_parametric_var_monotone (fun q => q - 1) (fun x => x)
      (List.replicate 12 1) 100 1 (fun x hx => hx) (by norm_num)).1
  · exact (C8_parametric_var_monotone (fun q => q - 1) (fun x => x)
      (List.replicate 12 1) 100 1 (fun x hx => hx) (by norm_num)).2

theorem calculateVaRHistorical_fst_pv (logQ : ℚ → ℚ) (prices : List ℚ)
    (conf pv pv' : ℚ) :
    (calculateVaRHistorical logQ prices conf pv).1 =
      (calculateVaRHistorical logQ prices conf pv').1 := by
  unfold calculateVaRHistorical
  by_cases hlen : prices.length < 10
  · rw [if_pos hlen, if_pos hlen]
  · rw [if_neg hlen, if_neg hlen]

theorem calculateVaRHistorical_fst_nonneg (logQ : ℚ → ℚ) (prices : List ℚ)
    (conf pv : ℚ) :
    0 ≤ (calculateVaRHistorical logQ prices conf pv).1 := by
  unfold calculateVaRHistorical
  by_cases hlen : prices.length < 10
  · rw [if_pos hlen]
  · rw [if_neg hlen]
    exact abs_nonneg _

theorem calculateCVaR_fst_cases (logQ : ℚ → ℚ) (prices : List ℚ) (conf pv : ℚ)
    (hlen : ¬ prices.length < 10) :
    (calculateCVaR logQ prices conf pv).1 =
      (if ((logReturns logQ prices).filter
          (fun r => r < -(calculateVaRHistorical logQ prices conf 1).1)).length = 0
       then (calculateVaRHistorical logQ prices conf 1).1
       else |listMean ((logReturns logQ prices).filter
          (fun r => r < -(calculateVaRHistorical logQ prices conf 1).1))|) := by
  unfold calculateCVaR
  rw [if_neg hlen]
  simp only []
  by_cases htail : ((logReturns logQ prices).filter
      (fun r => r < -(calculateVaRHistorical logQ prices conf 1).1)).length = 0
  · rw [if_pos htail, if_pos htail]
  · rw [if_neg htail, if_neg htail]

/-- C9: the historical CVaR relative value is at least the historical VaR
relative value for the same series and confidence level, with equality in the
degenerate (< 10 prices) case and in the empty-tail fallback case. -/
theorem C9_cvar_dominates_var (logQ : ℚ → ℚ) (prices : List ℚ) (conf pv pv' : ℚ)
    (_hconf : 0 < conf) :
    (calculateVaRHistorical logQ prices conf pv').1 ≤ (calculateCVaR logQ prices conf pv).1 ∧
    (prices.length < 10 →
      (calculateVaRHistorical logQ prices conf pv').1 = 0 ∧
      (calculateCVaR logQ prices conf pv).1 = 0) ∧
    (((logReturns logQ prices).filter
        (fun r => r < -(calculateVaRHistorical logQ prices conf 1).1)).length = 0 →
      (calculateCVaR logQ prices conf pv).1 = (calculateVaRHistorical logQ prices conf pv').1) := by
  have hvv : (calculateVaRHistorical logQ prices conf pv').1 =
      (calculateVaRHistorical logQ prices conf 1).1 :=
    calculateVaRHistorical_fst_pv logQ prices conf pv' 1
  by_cases hlen : prices.length < 10
  · have hvar0 : (calculateVaRHistorical logQ prices conf pv').1 = 0 := by
      unfold calculateVaRHistorical
      rw [if_pos hlen]
    have hcvar0 : (calculateCVaR logQ prices conf pv).1 = 0 := by
      unfold calculateCVaR
      rw [if_pos hlen]
    refine ⟨by rw [hvar0, hcvar0], fun _ => ⟨hvar0, hcvar0⟩, fun _ => by rw [hvar0, hcvar0]⟩
  · rw [calculateCVaR_fst_cases logQ prices conf pv hlen]
    by_cases htail : ((logReturns logQ prices).filter
        (fun r => r < -(calculateVaRHistorical logQ prices conf 1).1)).length = 0
    · rw [if_pos htail]
      exact ⟨le_of_eq hvv, fun h => absurd h hlen, fun _ => hvv.symm⟩
    · rw [if_neg htail]
      have hne : ((logReturns logQ prices).filter
          (fun r => r < -(calculateVaRHistorical logQ prices conf 1).1)) ≠ [] := by
        intro h
        exact htail (by rw [h]; rfl)
      have hall : ∀ x ∈ ((logReturns logQ prices).filter
          (fun r => r < -(calculateVaRHistorical logQ prices conf 1).1)),
          x < -(calculateVaRHistorical logQ prices conf 1).1 := by
        intro x hx
        have := List.mem_filter.1 hx
        exact of_decide_eq_true this.2
      have hmean : listMean ((logReturns logQ prices).filter
          (fun r => r < -(calculateVaRHistorical logQ prices conf 1).1)) <
          -(calculateVaRHistorical logQ prices conf 1).1 :=
        listMean_lt_of_forall_lt _ _ hne hall
      have hv1 : 0 ≤ (calculateVaRHistorical logQ prices conf 1).1 :=
        calculateVaRHistorical_fst_nonneg logQ prices conf 1
      have hmean_neg : listMean ((logReturns logQ prices).filter
          (fun r => r < -(calculateVaRHistorical logQ prices conf 1).1)) < 0 :=
        lt_of_lt_of_le hmean (by linarith)
      refine ⟨?_, fun h => absurd h hlen, fun h => absurd h htail⟩
      rw [hvv, abs_of_neg hmean_neg]
      linarith

/-- Witness for C9 on a concrete 12-point series at confidence 0.95. -/
theorem C9_cvar_dominates_var_witness :
    (0 : ℚ) < 0.95 ∧
    (calculateVaRHistorical (fun q => q - 1) (List.replicate 12 1) 0.95 50).1 ≤
      (calculateCVaR (fun q => q - 1) (List.replicate 12 1) 0.95 100).1 := by
  refine ⟨by norm_num, ?_⟩
  exact (C9_cvar_dominates_var (fun q => q - 1) (List.replicate 12 1) 0.95 100 50
    (by norm_num)).1

theorem getD_replicate_append (a x d : ℚ) (t : List ℚ) :
    ∀ j : ℕ, (List.replicate j a ++ x :: t).getD j d = x := by
  intro j
  induction j with
  | zero => rfl
  | succ n ih =>
    rw [List.replicate_succ, List.cons_append, List.getD_cons_succ]
    exact ih

theorem set_replicate_append (a b x : ℚ) (t : List ℚ) :
    ∀ j : ℕ, (List.replicate j a ++ x :: t).set j b = List.replicate j a ++ b :: t := by
  intro j
  induction j with
  | zero => rfl
  | succ n ih =>
    rw [List.replicate_succ, List.cons_append, List.set_cons_succ, ih]
    rfl

/-- Folding the per-event bucket update over the events `j, j+1, ..., n-1`
turns the partially filled bucket list into the uniformly filled one. -/
theorem fill_aux (n : ℕ) (a : ℚ) (F : List ℚ → CashflowEvent → List ℚ)
    (hF : ∀ (B : List ℚ) (k : ℕ), k < n →
      F B ⟨(k : ℚ) * dayMs, a⟩ = B.set k (B.getD k 0 + a)) :
    ∀ (m j : ℕ), j + m = n →
      ((List.range' j m).map (fun (k : ℕ) => (⟨(k : ℚ) * dayMs, a⟩ : CashflowEvent))).foldl F
        (List.replicate j a ++ List.replicate m 0) = List.replicate n a := by
  intro m
  induction m with
  | zero =>
    intro j hj
    rw [Nat.add_zero] at hj
    subst hj
    simp
  | succ m ih =>
    intro j hj
    rw [List.range'_succ, List.map_cons, List.foldl_cons]
    have hjn : j < n := by omega
    rw [hF _ j hjn, List.replicate_succ, getD_replicate_append, set_replicate_append,
      zero_add]
    have hrepl : List.replicate j a ++ a :: List.replicate m 0 =
        List.replicate (j + 1) a ++ List.replicate m (0 : ℚ) := by
      rw [List.replicate_succ', List.append_assoc, List.singleton_append]
    rw [hrepl]
    exact ih (j + 1) (by omega)

/-- One event of amount `a` at the start of each of the `n` lookback days
yields a uniform daily bucket list. -/
theorem toDailyNetFlows_uniform (n : ℕ) (a : ℚ) :
    toDailyNetFlows ((n : ℚ) * dayMs)
      ((List.range n).map (fun (k : ℕ) => (⟨(k : ℚ) * dayMs, a⟩ : CashflowEvent))) n =
      List.replicate n a := by
  unfold toDailyNetFlows
  rw [List.range_eq_range']
  rw [show List.replicate n (0 : ℚ) = List.replicate 0 a ++ List.replicate n 0 from rfl]
  apply fill_aux n a _ _ n 0 (by omega)
  intro B k hk
  simp only []
  have hd : (0 : ℚ) < dayMs := by norm_num [dayMs]
  have hcond : ¬ ((k : ℚ) * dayMs < (n : ℚ) * dayMs - (n : ℚ) * dayMs ∨
      (k : ℚ) * dayMs > (n : ℚ) * dayMs) := by
    rw [sub_self]
    push_neg
    constructor
    · positivity
    · apply mul_le_mul_of_nonneg_right _ hd.le
      exact_mod_cast hk.le
  rw [if_neg hcond]
  have hidx : ((k : ℚ) * dayMs - ((n : ℚ) * dayMs - (n : ℚ) * dayMs)) / dayMs = (k : ℚ) := by
    rw [sub_self, sub_zero]
    exact mul_div_cancel_right₀ _ hd.ne'
  rw [hidx, Int.floor_natCast, Int.toNat_natCast, Nat.min_eq_right (by omega)]

theorem listMean_replicate (n : ℕ) (a : ℚ) (hn : n ≠ 0) :
    listMean (List.replicate n a) = a := by
  unfold listMean
  rw [List.sum_replicate, List.length_replicate, nsmul_eq_mul]
  have h : (n : ℚ) ≠ 0 := Nat.cast_ne_zero.2 hn
  field_simp

theorem popVariance_replicate (n : ℕ) (a : ℚ) (hn : n ≠ 0) :
    popVariance (List.replicate n a) = 0 := by
  unfold popVariance
  rw [listMean_replicate n a hn]
  rw [List.map_replicate, sub_self]
  norm_num

/-- C6: `expectedEndingBalance` is the starting balance plus horizon times the
mean daily bucket; when `sigma * sqrt(horizonDays)` is zero the overdraft
probability is 1 for a negative expected ending balance and 0 otherwise; and
the scenario — balance 500, 30 days of daily net -20, horizon 7 — yields
expectedEndingBalance 360, meanDailyNet -20, stdDailyNet 0 and overdraft
probability 0. -/
theorem C6_cashflow_forecast :
    (∀ (sqrtQ expQ : ℚ → ℚ) (now sb hz : ℚ) (events : List CashflowEvent) (lb : ℕ)
        (conf : ℚ) (r : CashflowForecastResult),
      forecastCashflow sqrtQ expQ now sb events hz lb conf = some r →
        r.expectedEndingBalance = sb + hz * listMean (toDailyNetFlows now events lb) ∧
        (r.stdDailyNet * sqrtQ hz = 0 →
          r.probabilityOfOverdraft = if r.expectedEndingBalance < 0 then 1 else 0)) ∧
    (∀ sqrtQ expQ : ℚ → ℚ, sqrtQ 0 = 0 →
      ∃ r, forecastCashflow sqrtQ expQ (((30 : ℕ) : ℚ) * dayMs) 500 scenarioEvents 7 30
          0.95 = some r ∧
        r.expectedEndingBalance = 360 ∧ r.meanDailyNet = -20 ∧ r.stdDailyNet = 0 ∧
        r.probabilityOfOverdraft = 0) := by
  constructor
  · intro sqrtQ expQ now sb hz events lb conf r h
    simp only [forecastCashflow] at h
    by_cases hnz : (toDailyNetFlows now events lb).any (fun v => v ≠ 0) = true
    · rw [if_neg (fun hc => hc hnz)] at h
      obtain rfl := Option.some.inj h
      constructor
      · rfl
      · intro hd
        have hd' : (if (toDailyNetFlows now events lb).length ≥ 2 then
            sqrtQ (popVariance (toDailyNetFlows now events lb)) else 0) * sqrtQ hz = 0 := hd
        show (if (if (toDailyNetFlows now events lb).length ≥ 2 then
              sqrtQ (popVariance (toDailyNetFlows now events lb)) else 0) * sqrtQ hz > 0 then
            normalCdf expQ ((0 - (sb + hz * listMean (toDailyNetFlows now events lb))) /
              ((if (toDailyNetFlows now events lb).length ≥ 2 then
                sqrtQ (popVariance (toDailyNetFlows now events lb)) else 0) * sqrtQ hz))
          else if sb + hz * listMean (toDailyNetFlows now events lb) < 0 then 1 else 0) =
          if sb + hz * listMean (toDailyNetFlows now events lb) < 0 then 1 else 0
        rw [hd']
        simp
    · rw [if_pos hnz] at h
      cases h
  · intro sqrtQ expQ hs0
    have hdaily : toDailyNetFlows (((30 : ℕ) : ℚ) * dayMs) scenarioEvents 30 =
        List.replicate 30 (-20) := toDailyNetFlows_uniform 30 (-20)
    have hmean := listMean_replicate 30 (-20 : ℚ) (by norm_num)
    have hvar := popVariance_replicate 30 (-20 : ℚ) (by norm_num)
    have hany : (List.replicate 30 (-20 : ℚ)).any (fun v => v ≠ 0) = true := by
      rw [List.any_eq_true]
      exact ⟨-20, List.mem_replicate.2 ⟨by norm_num, rfl⟩, by norm_num⟩
    simp only [forecastCashflow]
    rw [hdaily, if_neg (fun hc => hc hany)]
    have hsig : (if (List.replicate 30 (-20 : ℚ)).length ≥ 2 then
        sqrtQ (popVariance (List.replicate 30 (-20 : ℚ))) else 0) = 0 := by
      rw [if_pos (by simp), hvar, hs0]
    refine ⟨_, rfl, ?_, ?_, ?_, ?_⟩
    · show 500 + 7 * listMean (List.replicate 30 (-20 : ℚ)) = 360
      rw [hmean]
      norm_num
    · exact hmean
    · exact hsig
    · show (if (if (List.replicate 30 (-20 : ℚ)).length ≥ 2 then
            sqrtQ (popVariance (List.replicate 30 (-20 : ℚ))) else 0) * sqrtQ 7 > 0 then
          normalCdf expQ ((0 - (500 + 7 * listMean (List.replicate 30 (-20 : ℚ)))) /
            ((if (List.replicate 30 (-20 : ℚ)).length ≥ 2 then
              sqrtQ (popVariance (List.replicate 30 (-20 : ℚ))) else 0) * sqrtQ 7))
        else if 500 + 7 * listMean (List.replicate 30 (-20 : ℚ)) < 0 then 1 else 0) = 0
      rw [hsig, hmean]
      norm_num

/-- Witness for C6 with an explicit square-root oracle. -/
theorem C6_cashflow_forecast_witness :
    (fun _ : ℚ => (0 : ℚ)) 0 = 0 ∧
    (∃ r, forecastCashflow (fun _ => 0) (fun q => q) (((30 : ℕ) : ℚ) * dayMs) 500
        scenarioEvents 7 30 0.95 = some r ∧
      r.expectedEndingBalance = 360 ∧ r.meanDailyNet = -20 ∧ r.stdDailyNet = 0 ∧
      r.probabilityOfOverdraft = 0) :=
  ⟨rfl, C6_cashflow_forecast.2 (fun _ => 0) (fun q => q) rfl⟩

/-- C7 counterexample: two equal unit positions whose individual metrics all
have cvar95 = 1/2 and var95 = 1/10.  The value-weighted average of cvar95 is
1/2, so the claim predicts a portfolio cvar95 of (1/2) * 0.85 = 17/40; the
code instead returns weightedVar95 * 1.2 * 0.85 = 51/500. -/
theorem C7_counterexample :
    (calculatePortfolioRisk (fun x => x)
        (fun _ _ => ⟨2, 0, 1/10, 0, 1/2, 0, 2/5, 0, 0, 0, 0⟩)
        [⟨"A", 1⟩, ⟨"B", 1⟩]).1.cvar95 = 51/500 ∧
    ((51 : ℚ)/500 ≠ (1/2 : ℚ) * 0.85) := by
  constructor
  · unfold calculatePortfolioRisk
    rw [if_neg (by norm_num)]
    norm_num [List.map_cons, List.map_nil, List.sum_cons, List.sum_nil]
  · norm_num

/-- C7 amended: with nonzero total value and at least one position, the code's
portfolio metrics are: volatility and var95 the value-weighted averages of the
positions' own metrics times the diversification factor (0.85 for more than
one position, 1.0 otherwise); relativeUncertainty the undiscounted weighted
average; var99, cvar95 and cvar99 fixed multiples 1.5, 1.2, 1.8 of the
discounted weighted var95; maxDrawdown twice the undiscounted weighted var95;
and currentDrawdown 0. -/
theorem C7_portfolio_risk_formulas (sqrtQ : ℚ → ℚ)
    (metricsOf : String → ℚ → RiskMetrics) (positions : List Position)
    (htot : (positions.map (fun p => p.value)).sum ≠ 0)
    (hne : positions.length ≠ 0) :
    calculatePortfolioRisk sqrtQ metricsOf positions =
      (let total := (positions.map (fun p => p.value)).sum
       let wVar := weightedMetricSum metricsOf positions total (fun m => m.var95)
       let wVol := weightedMetricSum metricsOf positions total (fun m => m.volatility)
       let wUnc := weightedMetricSum metricsOf positions total
         (fun m => m.relativeUncertainty)
       let d : ℚ := if positions.length > 1 then 0.85 else 1.0
       (⟨wVol * d, wVol * d / sqrtQ 365, wVar * d, wVar * 1.5 * d, wVar * 1.2 * d,
         wVar * 1.8 * d, wVar * 2, 0, wUnc, total, wVar * total * d⟩, d)) := by
  unfold calculatePortfolioRisk weightedMetricSum
  rw [if_neg (fun h => h.elim htot hne)]

/-- Witness for C7's amended formulas at a concrete two-position portfolio. -/
theorem C7_portfolio_risk_formulas_witness :
    (([(⟨"A", 1⟩ : Position), ⟨"B", 3⟩].map (fun p => p.value)).sum ≠ 0) ∧
    (([(⟨"A", 1⟩ : Position), ⟨"B", 3⟩].length ≠ 0)) ∧
    calculatePortfolioRisk (fun x => x)
        (fun _ _ => ⟨2, 0, 1/10, 0, 1/2, 0, 2/5, 0, 0, 0, 0⟩)
        [⟨"A", 1⟩, ⟨"B", 3⟩] =
      (let total := (([(⟨"A", 1⟩ : Position), ⟨"B", 3⟩]).map (fun p => p.value)).sum
       let wVar := weightedMetricSum (fun _ _ => ⟨2, 0, 1/10, 0, 1/2, 0, 2/5, 0, 0, 0, 0⟩)
         [⟨"A", 1⟩, ⟨"B", 3⟩] total (fun m => m.var95)
       let wVol := weightedMetricSum (fun _ _ => ⟨2, 0, 1/10, 0, 1/2, 0, 2/5, 0, 0, 0, 0⟩)
         [⟨"A", 1⟩, ⟨"B", 3⟩] total (fun m => m.volatility)
       let wUnc := weightedMetricSum (fun _ _ => ⟨2, 0, 1/10, 0, 1/2, 0, 2/5, 0, 0, 0, 0⟩)
         [⟨"A", 1⟩, ⟨"B", 3⟩] total (fun m => m.relativeUncertainty)
       let d : ℚ := if ([(⟨"A", 1⟩ : Position), ⟨"B", 3⟩]).length > 1 then 0.85 else 1.0
       (⟨wVol * d, wVol * d / (fun x : ℚ => x) 365, wVar * d, wVar * 1.5 * d,
         wVar * 1.2 * d, wVar * 1.8 * d, wVar * 2, 0, wUnc, total, wVar * total * d⟩, d)) := by
  refine ⟨by norm_num, by norm_num, ?_⟩
  exact C7_portfolio_risk_formulas (fun x => x)
    (fun _ _ => ⟨2, 0, 1/10, 0, 1/2, 0, 2/5, 0, 0, 0, 0⟩)
    [⟨"A", 1⟩, ⟨"B", 3⟩] (by norm_num) (by norm_num)

/-- C4 counterexample: three divisions cited by the claim have no zero guard —
with var95 = 0 and a 100 USD position the recommended max position is
+Infinity; a series starting at price 0 and ending at 5 yields totalReturn
+Infinity; and a forecast with errorMargin = 0 and expectedValue = 0 makes the
confidence score NaN. -/
theorem C4_counterexample :
    (generateDecision (fun q => q) 1.4 ⟨10, 9, 11, 0, 0.95, "ensemble", 25, 7, none, none⟩
        ⟨0, 0, 0, 0, 0, 0, 0, 0, 0, 0, 0⟩ 100
        ⟨false, 0⟩).riskAssessment.recommendedMaxPosition = JsNum.posInf ∧
    totalReturnOf [0, 5] = some JsNum.posInf ∧
    calculateConfidenceScore 100 ⟨0, 0, 0, 0, 0.95, "ensemble", 25, 7, none, none⟩
      ⟨0, 0, 0, 0, 0, 0, 0, 0, 0, 0, 0⟩ = JsNum.nan := by
  refine ⟨?_, ?_, ?_⟩
  · show jsDivQ (100 * 0.05) 0 = JsNum.posInf
    norm_num [jsDivQ]
  · unfold totalReturnOf
    rw [if_neg (by norm_num)]
    show some (jsDivQ (5 - 0) 0) = some JsNum.posInf
    norm_num [jsDivQ]
  · unfold calculateConfidenceScore
    norm_num [jsDivQ, JsNum.mulQ, jsMinQ, jsMaxQ, JsNum.sub, JsNum.round]

/-- C4 amended: not every division has a guarded fallback.  The Decision
Engine's recommendedMaxPosition divides by var95 unguarded and is +Infinity
whenever var95 = 0 and the position value is positive; the store's totalReturn
divides by the first price unguarded and is +Infinity whenever the first price
is 0 and the last is positive; the confidence score divides errorMargin by
expectedValue unguarded and is NaN when both are 0 (otherwise the clamps keep
it finite); by contrast the probability-of-loss sigma division is guarded as
documented. -/
theorem C4_division_guards (expQ : ℚ → ℚ) (sqrt2q : ℚ) (forecast : ForecastResult)
    (risk : RiskMetrics) (pv : ℚ) (pd : ProcessedPriceData) (prices : List ℚ) :
    (risk.var95 = 0 → 0 < pv →
      (generateDecision expQ sqrt2q forecast risk pv pd).riskAssessment.recommendedMaxPosition =
        JsNum.posInf) ∧
    (2 ≤ prices.length → prices.getD 0 0 = 0 → 0 < prices.getD (prices.length - 1) 0 →
      totalReturnOf prices = some JsNum.posInf) ∧
    (forecast.errorMargin = 0 → forecast.expectedValue = 0 →
      ∀ dq : ℚ, calculateConfidenceScore dq forecast risk = JsNum.nan) ∧
    (forecast.errorMargin = 0 →
      calculateProbabilityOfLoss expQ sqrt2q forecast pv =
        if pv = 0 then 0 else if forecast.expectedValue < 0 then 1 else 0) := by
  refine ⟨?_, ?_, ?_, ?_⟩
  · intro hvar hpv
    show jsDivQ (pv * 0.05) risk.var95 = JsNum.posInf
    rw [hvar]
    unfold jsDivQ
    rw [if_neg (by norm_num), if_pos (by linarith)]
  · intro hlen h0 hlast
    unfold totalReturnOf
    rw [if_neg (by omega), h0, sub_zero]
    unfold jsDivQ
    rw [if_neg (by norm_num), if_pos hlast]
  · intro hm he dq
    unfold calculateConfidenceScore
    rw [hm, he]
    simp [jsDivQ, JsNum.mulQ, jsMinQ, jsMaxQ, JsNum.sub, JsNum.round]
  · intro hm
    unfold calculateProbabilityOfLoss
    by_cases hpv : pv = 0
    · rw [if_pos hpv, if_pos hpv]
    · rw [if_neg hpv, if_neg hpv]
      have hsigma : forecast.errorMargin / (1.96 : ℚ) = 0 := by rw [hm]; norm_num
      simp only [hsigma, if_pos rfl]
      simp

/-- Witness for the amended C4 at concrete inputs. -/
theorem C4_division_guards_witness :
    (⟨0, 0, 0, 0, 0, 0, 0, 0, 0, 0, 0⟩ : RiskMetrics).var95 = 0 ∧ (0 : ℚ) < 100 ∧
    (generateDecision (fun q => q) 1.4 ⟨10, 9, 11, 2, 0.95, "ensemble", 25, 7, none, none⟩
        ⟨0, 0, 0, 0, 0, 0, 0, 0, 0, 0, 0⟩ 100
        ⟨false, 0⟩).riskAssessment.recommendedMaxPosition = JsNum.posInf ∧
    totalReturnOf [0, 5] = some JsNum.posInf := by
  refine ⟨rfl, by norm_num, ?_, ?_⟩
  · exact (C4_division_guards (fun q => q) 1.4 ⟨10, 9, 11, 2, 0.95, "ensemble", 25, 7,
      none, none⟩ ⟨0, 0, 0, 0, 0, 0, 0, 0, 0, 0, 0⟩ 100 ⟨false, 0⟩ [0, 5]).1 rfl
      (by norm_num)
  · exact (C4_division_guards (fun q => q) 1.4 ⟨10, 9, 11, 2, 0.95, "ensemble", 25, 7,
      none, none⟩ ⟨0, 0, 0, 0, 0, 0, 0, 0, 0, 0, 0⟩ 100 ⟨false, 0⟩ [0, 5]).2.1
      (by norm_num) (by norm_num) (by norm_num)
